import Mathlib

/-!
Shallow embedding of the collaborative multi-agent routing core
(`agent/graph.py`): the shared state record, the architect step with its
keyword classifier, the two routers, the SQL-analyst step and the
developer step's message assembly.  The three LLM agents are opaque
external collaborators; each step takes the agent's structured result as
an explicit argument.
-/

namespace SweAgent

/-- Role of a chat message, mirroring the langchain message classes used
by the core (HumanMessage / AIMessage). -/
inductive Role where
  | human
  | ai
deriving DecidableEq

/-- A chat message: a role plus text content (langchain BaseMessage as
consumed by the routing core). -/
structure Message where
  role : Role
  content : String
deriving DecidableEq

/-- HumanMessage constructor as used in graph.py. -/
def HumanMessage (content : String) : Message := ⟨Role.human, content⟩

/-- AIMessage constructor as used in graph.py. -/
def AIMessage (content : String) : Message := ⟨Role.ai, content⟩

/-- Values stored in the plan dictionaries built by graph.py: strings and
lists of strings. -/
inductive PyVal where
  | str : String → PyVal
  | listStr : List String → PyVal
deriving DecidableEq

/-- A Python dict with string keys, as used for implementation_plan and
collaboration_plan. -/
abbrev PyDict := List (String × PyVal)

/-- Python repr of a value, as produced inside str() of a containing dict
or list. -/
def pyReprVal : PyVal → String
  | PyVal.str s => "\x27" ++ s ++ "\x27"
  | PyVal.listStr xs =>
      "[" ++ String.intercalate ", " (xs.map (fun x => "\x27" ++ x ++ "\x27")) ++ "]"

/-- Python str() of a dict with string keys, modelling the
`str(result.get(...))` calls of graph.py. -/
def pyStrDict (d : PyDict) : String :=
  "\x7b" ++
    String.intercalate ", "
      (d.map (fun kv => "\x27" ++ kv.1 ++ "\x27: " ++ pyReprVal kv.2)) ++
    "\x7d"

/-- Python str() of a list of strings (used to render a nonempty warnings
list inside an f-string). -/
def pyStrListStr (xs : List String) : String :=
  "[" ++ String.intercalate ", " (xs.map (fun x => "\x27" ++ x ++ "\x27")) ++ "]"

/-- Python str() of a value at top level: str of a string is the string
itself; a list renders as its repr. -/
def pyStrVal : PyVal → String
  | PyVal.str s => s
  | PyVal.listStr xs => pyStrListStr xs

/-- Python dict.get with a default (string keys are unique, so the first
matching key is the only one). -/
def dictGet (d : PyDict) (k : String) (dflt : PyVal) : PyVal :=
  match d.find? (fun kv => kv.1 == k) with
  | some kv => kv.2
  | none => dflt

/-- Boolean substring occurrence on character lists, modelling Python's
`needle in hay` test on strings. -/
def containsSub (hay needle : List Char) : Bool :=
  match hay with
  | [] => needle.isEmpty
  | _ :: t => needle.isPrefixOf hay || containsSub t needle

/-- Python substring test `needle in hay` on strings. -/
def strContains (hay needle : String) : Bool := containsSub hay.data needle.data

/-- Python str.lower, character-wise (the keyword sets of graph.py are
plain ASCII). -/
def pyLower (s : String) : String := ⟨s.data.map Char.toLower⟩

/-- Modelled from the spec: the SQLAnalysisResult record is declared in
agent/analyst/state.py, which is not among the given sources.  The spec's
data model gives fields query (text), explanation (text), confidence
(number) and warnings (ordered sequence of text).  The confidence number
is kept as its rendered text because the routing core only interpolates
it into a message and never computes with it. -/
structure SQLAnalysisResult where
  query : String
  explanation : String
  confidence : String
  warnings : List String
deriving DecidableEq

/-- CollaborativeState from graph.py: the single state record threaded
through the workflow graph. -/
structure CollaborativeState where
  implementation_research_scratchpad : List Message
  research_summary : String
  implementation_plan : PyDict
  collaboration_plan : PyDict
  sql_analysis_result : Option SQLAnalysisResult
  sql_queries : List String
  database_schema : String
deriving DecidableEq

/-- A node return value in the graph runtime: a partial record that is
merged field-by-field into the state (fields the node does not return are
left untouched). -/
structure StateDelta where
  implementation_research_scratchpad : Option (List Message)
  research_summary : Option String
  implementation_plan : Option PyDict
  collaboration_plan : Option PyDict
  sql_analysis_result : Option (Option SQLAnalysisResult)
  sql_queries : Option (List String)
  database_schema : Option String
deriving DecidableEq

/-- The empty delta: a node that returned no fields. -/
def StateDelta.empty : StateDelta := ⟨none, none, none, none, none, none, none⟩

/-- Merge-by-field-name state update of the graph runtime.  The
scratchpad field is annotated with add_messages, so returned messages are
appended; every other returned field replaces the old value, and a field
that is absent from the delta is left unchanged. -/
def applyDelta (s : CollaborativeState) (d : StateDelta) : CollaborativeState where
  implementation_research_scratchpad :=
    s.implementation_research_scratchpad ++ (d.implementation_research_scratchpad).getD []
  research_summary := (d.research_summary).getD s.research_summary
  implementation_plan := (d.implementation_plan).getD s.implementation_plan
  collaboration_plan := (d.collaboration_plan).getD s.collaboration_plan
  sql_analysis_result := (d.sql_analysis_result).getD s.sql_analysis_result
  sql_queries := (d.sql_queries).getD s.sql_queries
  database_schema := (d.database_schema).getD s.database_schema

/-- SQL indicator keywords of enhanced_architect. -/
def sqlKeywords : List String :=
  ["sql", "query", "database", "data analysis", "analytics", "dashboard", "report"]

/-- Code indicator keywords of enhanced_architect. -/
def codeKeywords : List String :=
  ["implement", "develop", "code", "application", "api", "web", "software"]

/-- Result returned by the opaque architect agent; enhanced_architect
reads the keys research_summary and implementation_plan with result.get
and defaults. -/
structure ArchitectResult where
  research_summary : Option String
  implementation_plan : Option PyDict
deriving DecidableEq

/-- plan_text of enhanced_architect: str applied to the result's
implementation_plan key with the empty string as the missing-key default,
so the empty string when the key is absent and the stringified dict
otherwise. -/
def planText (result : ArchitectResult) : String :=
  match result.implementation_plan with
  | some d => pyStrDict d
  | none => ""

/-- research_text of enhanced_architect (str applied to a string is the
string itself, and the missing-key default is the empty string). -/
def researchText (result : ArchitectResult) : String :=
  (result.research_summary).getD ""

/-- needs_sql flag of enhanced_architect: the literal marker in the plan
text, or any SQL keyword inside the lower-cased concatenation of plan and
research text. -/
def needs_sql (plan_text research_text : String) : Bool :=
  strContains plan_text "[SQL_REQUIRED]" ||
    sqlKeywords.any (fun keyword =>
      strContains (pyLower (plan_text ++ research_text)) keyword)

/-- needs_code flag of enhanced_architect: the literal marker in the plan
text, or any code keyword inside the lower-cased concatenation of plan
and research text. -/
def needs_code (plan_text research_text : String) : Bool :=
  strContains plan_text "[CODE_REQUIRED]" ||
    codeKeywords.any (fun keyword =>
      strContains (pyLower (plan_text ++ research_text)) keyword)

/-- Collaboration plan dictionary built by enhanced_architect from the
two classification flags (the if/elif/elif/else chain of graph.py). -/
def collaborationPlanFor (ns nc : Bool) : PyDict :=
  if ns && nc then
    [("strategy", PyVal.str "collaborative"),
     ("steps", PyVal.listStr
       ["1. SQL Analyst: Analyze data requirements and create optimized queries",
        "2. Pass SQL results to Developer",
        "3. Developer: Implement application using SQL queries"])]
  else if ns then
    [("strategy", PyVal.str "sql_only"),
     ("steps", PyVal.listStr ["1. SQL Analyst: Complete data analysis"])]
  else if nc then
    [("strategy", PyVal.str "code_only"),
     ("steps", PyVal.listStr ["1. Developer: Implement software solution"])]
  else
    [("strategy", PyVal.str "code_only"),
     ("steps", PyVal.listStr ["1. Developer: Implement basic solution"])]

/-- Placeholder used by enhanced_architect when the scratchpad is empty. -/
def noRequirementsPlaceholder : String := "No specific requirements provided"

/-- original_content of enhanced_architect: the content of the last
scratchpad message, or the placeholder when the scratchpad is empty. -/
def architectOriginalContent (state : CollaborativeState) : String :=
  match state.implementation_research_scratchpad.getLast? with
  | some m => m.content
  | none => noRequirementsPlaceholder

/-- Fixed collaboration-analysis rubric appended after the original
content in the augmented architect prompt. -/
def collaborationRubric : String :=
  "\n    \n    COLLABORATION ANALYSIS INSTRUCTIONS:\n    Please analyze this request and determine what type of work is needed:\n    \n    1. If SQL/database analysis is needed, mark tasks with [SQL_REQUIRED]\n    2. If software development is needed, mark tasks with [CODE_REQUIRED]  \n    3. If both are needed, plan how they should work together\n    \n    Consider these indicators:\n    - SQL needed: dashboards, analytics, reports, data visualization, database queries, KPIs, metrics\n    - Code needed: applications, APIs, web development, implementation, software features\n    - Both needed: data-driven applications, analytics dashboards, reporting systems\n    \n    Create a clear implementation plan that shows:\n    - What data analysis/SQL work is needed (if any)\n    - What software development work is needed (if any)  \n    - How they should collaborate (if both are needed)\n    "

/-- Augmented human message that enhanced_architect sends to the
architect agent as the sole scratchpad entry. -/
def enhancedMessage (state : CollaborativeState) : Message :=
  HumanMessage ("\n    " ++ architectOriginalContent state ++ collaborationRubric)

/-- enhanced_architect node of graph.py.  The architect agent call is the
opaque external collaborator, so its structured result is an argument;
the returned delta carries exactly the three fields of the source's
return statement. -/
def enhanced_architect (state : CollaborativeState) (result : ArchitectResult) :
    StateDelta :=
  let plan_text := planText result
  let research_text := researchText result
  let ns := needs_sql plan_text research_text
  let nc := needs_code plan_text research_text
  { StateDelta.empty with
      research_summary := some ((result.research_summary).getD ""),
      implementation_plan := some ((result.implementation_plan).getD []),
      collaboration_plan := some (collaborationPlanFor ns nc) }

/-- route_after_architect from graph.py. -/
def route_after_architect (state : CollaborativeState) : String :=
  let strategy := dictGet state.collaboration_plan "strategy" (PyVal.str "code_only")
  if strategy = PyVal.str "collaborative" then "sql_analyst"
  else if strategy = PyVal.str "sql_only" then "sql_analyst"
  else "developer"

/-- original_request of sql_analyst_step: the content of the last
scratchpad message, or the empty string when the scratchpad is empty. -/
def sqlOriginalRequest (state : CollaborativeState) : String :=
  match state.implementation_research_scratchpad.getLast? with
  | some m => m.content
  | none => ""

/-- Requirements brief assembled by sql_analyst_step for the SQL agent. -/
def sqlRequirements (state : CollaborativeState) : String :=
  "\n    Original Request: " ++ sqlOriginalRequest state ++
    "\n    \n    Architect\x27s Analysis: " ++ state.research_summary ++
    "\n    \n    Implementation Plan Context: " ++ pyStrDict state.implementation_plan ++
    "\n    \n    Please create optimized SQL queries and analysis for this project.\n    Focus on data extraction, performance, and how the results will be used.\n    "

/-- schema_information passed to the SQL agent: the database schema, or
the generic fallback when the schema text is empty (Python `or` on a
possibly empty string). -/
def sqlSchemaInformation (state : CollaborativeState) : String :=
  if state.database_schema = "" then "Schema not provided - create optimal generic queries"
  else state.database_schema

/-- sql_analyst_step node of graph.py.  The SQL agent call is opaque, so
the sql_analysis_result value read from its response (None when the key
is absent) is an argument; the returned delta carries exactly the two
fields of the source's return statement. -/
def sql_analyst_step (state : CollaborativeState)
    (result : Option SQLAnalysisResult) : StateDelta :=
  let sql_result := result
  let queries : List String :=
    match sql_result with
    | some r => if r.query = "" then [] else [r.query]
    | none => []
  { StateDelta.empty with
      sql_analysis_result := some sql_result,
      sql_queries := some queries }

/-- route_after_sql from graph.py. -/
def route_after_sql (state : CollaborativeState) : String :=
  let strategy := dictGet state.collaboration_plan "strategy" (PyVal.str "code_only")
  if strategy = PyVal.str "collaborative" then "developer"
  else "end"

/-- Content of the synthetic SQL-context message built by developer_step
when a SQL result exists; an empty warnings list renders as the literal
text None, a nonempty one as its Python list repr. -/
def sqlContext (r : SQLAnalysisResult) : String :=
  "\n        SQL ANALYSIS RESULTS:\n        \n        Query: " ++ r.query ++
    "\n        \n        Explanation: " ++ r.explanation ++
    "\n        \n        Confidence: " ++ r.confidence ++
    "\n        \n        Warnings: " ++
    (if r.warnings = [] then "None" else pyStrListStr r.warnings) ++
    "\n        \n        INTEGRATION INSTRUCTIONS:\n        - Use the above SQL query in your implementation\n        - Consider the data structure returned by this query  \n        - Implement proper error handling for database operations\n        - Add data validation and transformation as needed\n        "

/-- Content of the synthetic plan-context message built by developer_step
when the implementation plan is nonempty. -/
def planContext (state : CollaborativeState) : String :=
  "\n        ARCHITECT\x27S IMPLEMENTATION PLAN:\n        " ++
    pyStrDict state.implementation_plan ++
    "\n        \n        COLLABORATION STRATEGY: " ++
    pyStrVal (dictGet state.collaboration_plan "strategy" (PyVal.str "unknown")) ++
    "\n        "

/-- developer_messages assembled by developer_step: a copy of the
scratchpad, plus the SQL-context message when a SQL result exists, plus
the plan-context message when the implementation plan is nonempty. -/
def developerMessages (state : CollaborativeState) : List Message :=
  let base := state.implementation_research_scratchpad
  let withSql :=
    match state.sql_analysis_result with
    | some r => base ++ [AIMessage (sqlContext r)]
    | none => base
  if state.implementation_plan = [] then withSql
  else withSql ++ [AIMessage (planContext state)]

/-- developer_step node of graph.py: it invokes the opaque developer
agent on the augmented messages and the implementation plan and returns
the agent's result verbatim as the state delta. -/
def developer_step (state : CollaborativeState)
    (invokeDeveloper : List Message → PyDict → StateDelta) : StateDelta :=
  invokeDeveloper (developerMessages state) state.implementation_plan

/-- containsSub is the Boolean form of the list infix relation. -/
theorem containsSub_infix_iff (hay needle : List Char) :
    containsSub hay needle = true ↔ needle <:+: hay := by
  induction hay with
  | nil => simp [containsSub, List.isEmpty_iff, List.infix_nil]
  | cons a t ih =>
      simp only [containsSub, Bool.or_eq_true, ih, List.infix_cons_iff,
        List.isPrefixOf_iff_prefix]

/-- strContains is the Boolean form of infix on the underlying character
lists. -/
theorem strContains_infix_iff (hay needle : String) :
    strContains hay needle = true ↔ needle.data <:+: hay.data :=
  containsSub_infix_iff hay.data needle.data

/-- A substring of the right part is a substring of a concatenation. -/
theorem strContains_append_left (s t n : String)
    (h : strContains t n = true) : strContains (s ++ t) n = true := by
  rw [strContains_infix_iff] at h ⊢
  rw [String.data_append]
  exact h.trans ( List.IsSuffix.isInfix (List.suffix_append s.data t.data))

/-- A substring of the left part is a substring of a concatenation. -/
theorem strContains_append_right (s t n : String)
    (h : strContains s n = true) : strContains (s ++ t) n = true := by
  rw [strContains_infix_iff] at h ⊢
  rw [String.data_append]
  exact h.trans ( List.IsPrefix.isInfix (List.prefix_append s.data t.data))

/-- Every string contains itself. -/
theorem strContains_self (s : String) : strContains s s = true :=
  (strContains_infix_iff s s).mpr (List.infix_refl s.data)

/-- Substring containment is transitive. -/
theorem strContains_trans (a b c : String) (h1 : strContains a b = true)
    (h2 : strContains b c = true) : strContains a c = true := by
  rw [strContains_infix_iff] at h1 h2 ⊢
  exact h2.trans h1

/-- Lower-casing preserves substring containment. -/
theorem strContains_pyLower (hay needle : String)
    (h : strContains hay needle = true) :
    strContains (pyLower hay) (pyLower needle) = true := by
  rw [strContains_infix_iff] at h ⊢
  exact List.IsInfix.map Char.toLower h

/-- Lower-casing distributes over string concatenation. -/
theorem pyLower_append (s t : String) :
    pyLower (s ++ t) = pyLower s ++ pyLower t := by
  apply String.ext
  simp [pyLower, String.data_append]

/-- C1: for every run of the architect step, the strategy written into
collaboration_plan is determined by the pair (needs_sql, needs_code)
exactly per the decision table: both flags true gives collaborative, SQL
only gives sql_only, and the two remaining rows (code only, neither) give
code_only — in particular any text matching neither keyword set nor a
marker makes both flags false and yields code_only. -/
theorem c1_architect_strategy_decision_table
    (state : CollaborativeState) (result : ArchitectResult) :
    dictGet (((enhanced_architect state result).collaboration_plan).getD [])
        "strategy" (PyVal.str "code_only") =
      PyVal.str
        (if needs_sql (planText result) (researchText result) &&
            needs_code (planText result) (researchText result) then "collaborative"
         else if needs_sql (planText result) (researchText result) then "sql_only"
         else "code_only") := by
  have h1 : ((enhanced_architect state result).collaboration_plan).getD [] =
      collaborationPlanFor (needs_sql (planText result) (researchText result))
        (needs_code (planText result) (researchText result)) := rfl
  rw [h1]
  cases hns : needs_sql (planText result) (researchText result) <;>
    cases hnc : needs_code (planText result) (researchText result) <;> rfl

/-- C2: the router after the architect is a total function of the stored
strategy: collaborative and sql_only map to sql_analyst and anything else
— including code_only and an unset strategy — maps to developer; on every
state it returns one of the two node names, with the four instantiated
rows shown for arbitrary values of every other state field. -/
theorem c2_route_after_architect_total (state : CollaborativeState)
    (sp : List Message) (rs : String) (ip : PyDict)
    (sr : Option SQLAnalysisResult) (qs : List String) (ds : String) :
    (route_after_architect state =
      if dictGet state.collaboration_plan "strategy" (PyVal.str "code_only") =
            PyVal.str "collaborative" ∨
          dictGet state.collaboration_plan "strategy" (PyVal.str "code_only") =
            PyVal.str "sql_only" then "sql_analyst"
      else "developer") ∧
    (route_after_architect state = "sql_analyst" ∨
      route_after_architect state = "developer") ∧
    route_after_architect
        ⟨sp, rs, ip, [("strategy", PyVal.str "collaborative")], sr, qs, ds⟩ =
      "sql_analyst" ∧
    route_after_architect
        ⟨sp, rs, ip, [("strategy", PyVal.str "sql_only")], sr, qs, ds⟩ =
      "sql_analyst" ∧
    route_after_architect
        ⟨sp, rs, ip, [("strategy", PyVal.str "code_only")], sr, qs, ds⟩ =
      "developer" ∧
    route_after_architect ⟨sp, rs, ip, [], sr, qs, ds⟩ = "developer" := by
  refine ⟨?_, ?_, rfl, rfl, rfl, rfl⟩
  · unfold route_after_architect
    by_cases h1 : dictGet state.collaboration_plan "strategy" (PyVal.str "code_only") =
        PyVal.str "collaborative" <;>
      by_cases h2 : dictGet state.collaboration_plan "strategy" (PyVal.str "code_only") =
          PyVal.str "sql_only" <;>
        simp [h1, h2]
  · unfold route_after_architect
    by_cases h1 : dictGet state.collaboration_plan "strategy" (PyVal.str "code_only") =
        PyVal.str "collaborative" <;>
      by_cases h2 : dictGet state.collaboration_plan "strategy" (PyVal.str "code_only") =
          PyVal.str "sql_only" <;>
        simp [h1, h2]

/-- C3: the router after the SQL analyst maps the stored strategy
collaborative to developer and every other strategy value to the terminal
signal; instantiated rows show that sql_only always yields the terminal
signal end and never developer, for arbitrary values of every other state
field. -/
theorem c3_route_after_sql_table (state : CollaborativeState)
    (sp : List Message) (rs : String) (ip : PyDict)
    (sr : Option SQLAnalysisResult) (qs : List String) (ds : String) :
    (route_after_sql state =
      if dictGet state.collaboration_plan "strategy" (PyVal.str "code_only") =
          PyVal.str "collaborative" then "developer" else "end") ∧
    route_after_sql ⟨sp, rs, ip, [("strategy", PyVal.str "sql_only")], sr, qs, ds⟩ =
      "end" ∧
    route_after_sql ⟨sp, rs, ip, [("strategy", PyVal.str "sql_only")], sr, qs, ds⟩ ≠
      "developer" ∧
    route_after_sql
        ⟨sp, rs, ip, [("strategy", PyVal.str "collaborative")], sr, qs, ds⟩ =
      "developer" := by
  refine ⟨rfl, rfl, ?_, rfl⟩
  intro hcontra
  have h0 : route_after_sql
      ⟨sp, rs, ip, [("strategy", PyVal.str "sql_only")], sr, qs, ds⟩ = "end" := rfl
  rw [h0] at hcontra
  exact absurd hcontra (by decide)

/-- C4: whenever the case-sensitive literal marker occurs anywhere in the
plan text or the research text, the architect's needs_sql flag is true:
in the plan text it is the explicit marker test, and in the research text
the lower-cased marker still contains the keyword sql. -/
theorem c4_marker_forces_needs_sql (plan_text research_text : String)
    (h : strContains plan_text "[SQL_REQUIRED]" = true ∨
      strContains research_text "[SQL_REQUIRED]" = true) :
    needs_sql plan_text research_text = true := by
  unfold needs_sql
  rw [Bool.or_eq_true]
  rcases h with h | h
  · exact Or.inl h
  · right
    rw [List.any_eq_true]
    refine ⟨"sql", by simp [sqlKeywords], ?_⟩
    have h2 : strContains (pyLower research_text) (pyLower "[SQL_REQUIRED]") = true :=
      strContains_pyLower _ _ h
    have h3 : pyLower "[SQL_REQUIRED]" = "[sql_required]" := by decide
    rw [h3] at h2
    have h4 : strContains "[sql_required]" "sql" = true := by decide
    have h5 : strContains (pyLower research_text) "sql" = true :=
      strContains_trans _ _ _ h2 h4
    rw [pyLower_append]
    exact strContains_append_left _ _ _ h5

/-- Witness for C4 at a concrete input: the marker sits only in the
research text, and the flag is true. -/
theorem c4_marker_forces_needs_sql_witness :
    (strContains "" "[SQL_REQUIRED]" = true ∨
      strContains "analyze the [SQL_REQUIRED] tasks" "[SQL_REQUIRED]" = true) ∧
    needs_sql "" "analyze the [SQL_REQUIRED] tasks" = true :=
  ⟨Or.inr (by decide),
    c4_marker_forces_needs_sql "" "analyze the [SQL_REQUIRED] tasks"
      (Or.inr (by decide))⟩

/-- C5: after the SQL-analyst step, sql_queries is the one-element list
holding the result's query when the result is present with a nonempty
query, and the empty list when the result is absent or the query is
empty. -/
theorem c5_sql_queries_round_trip (state : CollaborativeState)
    (result : Option SQLAnalysisResult) :
    (sql_analyst_step state result).sql_queries =
      some (match result with
            | some r => if r.query = "" then [] else [r.query]
            | none => []) := by
  cases result <;> rfl

/-- C6: once the architect step has run, the stored strategy is one of
the three enumerated values, whatever default the lookup is given; the
SQL-analyst step returns no collaboration_plan field, so the merge leaves
the plan unchanged; and on a state with no collaboration plan both
routers fall back to code_only, routing to developer and to the terminal
signal respectively. -/
theorem c6_strategy_enumerated_invariant (state : CollaborativeState)
    (result : ArchitectResult) (sqlres : Option SQLAnalysisResult) (d : PyVal)
    (sp : List Message) (rs : String) (ip : PyDict)
    (sr : Option SQLAnalysisResult) (qs : List String) (ds : String) :
    (dictGet (applyDelta state (enhanced_architect state result)).collaboration_plan
          "strategy" d = PyVal.str "collaborative" ∨
      dictGet (applyDelta state (enhanced_architect state result)).collaboration_plan
          "strategy" d = PyVal.str "sql_only" ∨
      dictGet (applyDelta state (enhanced_architect state result)).collaboration_plan
          "strategy" d = PyVal.str "code_only") ∧
    (sql_analyst_step (applyDelta state (enhanced_architect state result))
        sqlres).collaboration_plan = none ∧
    (applyDelta (applyDelta state (enhanced_architect state result))
        (sql_analyst_step (applyDelta state (enhanced_architect state result))
          sqlres)).collaboration_plan =
      (applyDelta state (enhanced_architect state result)).collaboration_plan ∧
    route_after_architect ⟨sp, rs, ip, [], sr, qs, ds⟩ = "developer" ∧
    route_after_sql ⟨sp, rs, ip, [], sr, qs, ds⟩ = "end" := by
  refine ⟨?_, rfl, rfl, rfl, rfl⟩
  have h1 : (applyDelta state (enhanced_architect state result)).collaboration_plan =
      collaborationPlanFor (needs_sql (planText result) (researchText result))
        (needs_code (planText result) (researchText result)) := rfl
  rw [h1]
  cases hns : needs_sql (planText result) (researchText result) <;>
    cases hnc : needs_code (planText result) (researchText result)
  · exact Or.inr (Or.inr rfl)
  · exact Or.inr (Or.inr rfl)
  · exact Or.inr (Or.inl rfl)
  · exact Or.inl rfl

/-- C7: both routers read only collaboration_plan: two states that agree
on collaboration_plan but differ arbitrarily in the scratchpad and every
other field are routed identically by both routers. -/
theorem c7_routers_read_only_collaboration_plan (s1 s2 : CollaborativeState)
    (h : s1.collaboration_plan = s2.collaboration_plan) :
    route_after_architect s1 = route_after_architect s2 ∧
    route_after_sql s1 = route_after_sql s2 := by
  constructor
  · unfold route_after_architect
    rw [h]
  · unfold route_after_sql
    rw [h]

/-- Witness for C7 at two concrete states with the same collaboration
plan that differ in the scratchpad and in every other field. -/
theorem c7_routers_read_only_collaboration_plan_witness :
    route_after_architect
        ⟨[HumanMessage "alpha"], "r1", [], [("strategy", PyVal.str "sql_only")],
          none, [], ""⟩ =
      route_after_architect
        ⟨[], "r2", [("k", PyVal.str "v")], [("strategy", PyVal.str "sql_only")],
          some ⟨"q", "ex", "0.9", []⟩, ["q1"], "schema"⟩ ∧
    route_after_sql
        ⟨[HumanMessage "alpha"], "r1", [], [("strategy", PyVal.str "sql_only")],
          none, [], ""⟩ =
      route_after_sql
        ⟨[], "r2", [("k", PyVal.str "v")], [("strategy", PyVal.str "sql_only")],
          some ⟨"q", "ex", "0.9", []⟩, ["q1"], "schema"⟩ :=
  c7_routers_read_only_collaboration_plan
    ⟨[HumanMessage "alpha"], "r1", [], [("strategy", PyVal.str "sql_only")],
      none, [], ""⟩
    ⟨[], "r2", [("k", PyVal.str "v")], [("strategy", PyVal.str "sql_only")],
      some ⟨"q", "ex", "0.9", []⟩, ["q1"], "schema"⟩
    rfl

/-- C8: under the merge-by-field-name update, the architect step leaves
the scratchpad, the SQL analysis result, the extracted queries and the
database schema unchanged on every input state — in particular the
augmented rubric message is never persisted into the shared scratchpad. -/
theorem c8_architect_frame (state : CollaborativeState)
    (result : ArchitectResult) :
    (applyDelta state (enhanced_architect state result)).implementation_research_scratchpad =
        state.implementation_research_scratchpad ∧
    (applyDelta state (enhanced_architect state result)).sql_analysis_result =
        state.sql_analysis_result ∧
    (applyDelta state (enhanced_architect state result)).sql_queries =
        state.sql_queries ∧
    (applyDelta state (enhanced_architect state result)).database_schema =
        state.database_schema := by
  refine ⟨?_, rfl, rfl, rfl⟩
  simp [applyDelta, enhanced_architect, StateDelta.empty]

/-- C9: the developer step appends exactly one synthetic assistant
message with the SQL context when a SQL result is present and none when
it is absent (followed by the plan message when the plan is nonempty),
and an empty warnings sequence is rendered inside that message as the
literal text None. -/
theorem c9_developer_sql_context_message (state : CollaborativeState)
    (q e c : String) :
    (developerMessages state =
      state.implementation_research_scratchpad ++
        (match state.sql_analysis_result with
         | some r => [AIMessage (sqlContext r)]
         | none => []) ++
        (if state.implementation_plan = [] then []
         else [AIMessage (planContext state)])) ∧
    strContains (sqlContext ⟨q, e, c, []⟩) "Warnings: None" = true := by
  constructor
  · unfold developerMessages
    cases hsr : state.sql_analysis_result <;>
      by_cases hip : state.implementation_plan = [] <;>
        simp [hip]
  · have hred : sqlContext ⟨q, e, c, []⟩ =
        "\n        SQL ANALYSIS RESULTS:\n        \n        Query: " ++
          (q ++ ("\n        \n        Explanation: " ++
            (e ++ ("\n        \n        Confidence: " ++
              (c ++ ("\n        \n        Warnings: " ++
                ("None" ++
                  "\n        \n        INTEGRATION INSTRUCTIONS:\n        - Use the above SQL query in your implementation\n        - Consider the data structure returned by this query  \n        - Implement proper error handling for database operations\n        - Add data validation and transformation as needed\n        "))))))) := by
      simp [sqlContext, String.append_assoc]
    rw [hred]
    apply strContains_append_left
    apply strContains_append_left
    apply strContains_append_left
    apply strContains_append_left
    apply strContains_append_left
    apply strContains_append_left
    decide

/-- C10: with an empty scratchpad the architect step builds its augmented
instruction from the placeholder text and the SQL-analyst step uses the
empty string as the original request, for arbitrary values of every other
state field, so neither step indexes an empty sequence. -/
theorem c10_empty_scratchpad_total (rs : String) (ip cp : PyDict)
    (sr : Option SQLAnalysisResult) (qs : List String) (ds : String) :
    architectOriginalContent ⟨[], rs, ip, cp, sr, qs, ds⟩ =
        noRequirementsPlaceholder ∧
    strContains (enhancedMessage ⟨[], rs, ip, cp, sr, qs, ds⟩).content
        noRequirementsPlaceholder = true ∧
    sqlOriginalRequest ⟨[], rs, ip, cp, sr, qs, ds⟩ = "" := by
  refine ⟨rfl, ?_, rfl⟩
  show strContains ("\n    " ++ noRequirementsPlaceholder ++ collaborationRubric)
      noRequirementsPlaceholder = true
  apply strContains_append_right
  apply strContains_append_left
  exact strContains_self _

end SweAgent
